import Mathlib

/-!
Shallow embedding of the in-memory user registry of the repository
(`src/unnamed/part_000` lines 905–1014, `src/unnamed/part_001`, `src/main.go`).

The Go program keeps a package-level slice `var users = []User{}`,
a handler `getUsersHandler` that JSON-encodes the slice, a handler
`createUserHandler` that decodes a payload, builds a candidate with
`ID = len(users) + 1`, and calls `insertUser`, which validates
(empty email, empty name, duplicate email, in that order) and appends
on success.  We model the global slice by explicit state passing:
each handler takes the current `users` list and returns the new list
together with the HTTP response it writes.  Go `int` ids are modelled
as `Nat` (ids are `len(users) + 1`, always positive and far from any
overflow for any list that fits in memory).
-/

namespace UsersApi

/-- The `User` struct of `src/unnamed/part_001`: `ID int`, `Name string`,
`Email string` with JSON tags `id`, `name`, `email`. -/
structure User where
  id : Nat
  name : String
  email : String
deriving DecidableEq, Repr

/-- The HTTP response a handler writes: status code and body text. -/
structure Response where
  status : Nat
  body : String
deriving DecidableEq, Repr

/-- The initial registry: `var users = []User{}` (an empty, non-nil slice). -/
def users0 : List User := []

/-- `insertUser` (`part_000` lines 987–1014): validates the candidate and,
on success, appends it to the registry.  The Go function mutates the
package-level slice and returns `error`; we return the new registry in
`Except.ok` and the error message in `Except.error` (the registry is
untouched on every error path, which all return before the append). -/
def insertUser (users : List User) (u : User) : Except String (List User) :=
  if u.email = "" then
    .error "email is required"
  else if u.name = "" then
    .error "name is required"
  else if users.any (fun user => user.email == u.email) then
    .error "email already exists"
  else
    .ok (users ++ [u])

/-- The candidate record built in `createUserHandler` (lines 965–969):
`User{ID: len(users) + 1, Name: payload.Name, Email: payload.Email}`. -/
def mkCandidate (users : List User) (payload : User) : User :=
  { id := users.length + 1, name := payload.name, email := payload.email }

/-- `createUserHandler` (lines 948–982), after the JSON body has been decoded
into `payload`: build the candidate, call `insertUser`; on error write the
message with status 400 (`http.Error` appends a newline), on success write
status 201 with no body. -/
def createUserHandler (users : List User) (payload : User) :
    List User × Response :=
  match insertUser users (mkCandidate users payload) with
  | .error msg => (users, { status := 400, body := msg ++ "\n" })
  | .ok newUsers => (newUsers, { status := 201, body := "" })

/-- One hexadecimal digit, for JSON `\u00XX` escapes of control characters. -/
def hexDigit (n : Nat) : Char :=
  if n < 10 then Char.ofNat (48 + n) else Char.ofNat (87 + n)

/-- JSON escaping of one character, as `encoding/json` performs it for the
string fields of `User` (quote, backslash, HTML-unsafe characters and
control characters are escaped; everything else passes through). -/
def jsonEscapeChar (c : Char) : String :=
  if c = Char.ofNat 34 then "\\\""
  else if c = Char.ofNat 92 then "\\\\"
  else if c = Char.ofNat 10 then "\\n"
  else if c = Char.ofNat 13 then "\\r"
  else if c = Char.ofNat 9 then "\\t"
  else if c = Char.ofNat 60 ∨ c = Char.ofNat 62 ∨ c = Char.ofNat 38 ∨ c.toNat < 32 then
    "\\u00" ++ String.singleton (hexDigit (c.toNat / 16))
      ++ String.singleton (hexDigit (c.toNat % 16))
  else
    String.singleton c

/-- JSON encoding of a string value. -/
def jsonString (s : String) : String :=
  "\"" ++ String.join (s.toList.map jsonEscapeChar) ++ "\""

/-- JSON encoding of one `User`, per the struct's tags:
`{"id":…,"name":…,"email":…}`. -/
def encodeUser (u : User) : String :=
  "\x7b\"id\":" ++ toString u.id ++ ",\"name\":" ++ jsonString u.name
    ++ ",\"email\":" ++ jsonString u.email ++ "\x7d"

/-- JSON encoding of the registry, as `json.NewEncoder(w).Encode(users)`
serializes the slice: a JSON array (the empty slice encodes as `[]`). -/
def encodeUsers (users : List User) : String :=
  "[" ++ String.intercalate "," (users.map encodeUser) ++ "]"

/-- `getUsersHandler` (lines 927–945): JSON-encode the registry into the
response with status 200.  The handler never writes to `users`, so the
first component of the result is the unchanged registry. -/
def getUsersHandler (users : List User) : List User × Response :=
  (users, { status := 200, body := encodeUsers users })

/-- A run of `createUserHandler` calls, tracking everything the claims
talk about: the registry state, the ids assigned by successful creates
in order, and the records successfully created in order. -/
structure Trace where
  users : List User
  assignedIds : List Nat
  created : List User
deriving DecidableEq, Repr

/-- One `POST /users` request with decoded payload `p`, applied to a trace:
the state moves as in `createUserHandler`; on success the assigned id and
the stored record are recorded. -/
def step (t : Trace) (p : User) : Trace :=
  match insertUser t.users (mkCandidate t.users p) with
  | .error _ => t
  | .ok newUsers =>
      { users := newUsers
        assignedIds := t.assignedIds ++ [(mkCandidate t.users p).id]
        created := t.created ++ [mkCandidate t.users p] }

/-- Run a sequence of create requests against the initial empty registry. -/
def run (ps : List User) : Trace :=
  ps.foldl step { users := users0, assignedIds := [], created := [] }

deriving instance DecidableEq for Except

/-- Success characterization of `insertUser`: it returns `ok` exactly when
both required fields are non-empty and no stored record shares the email,
and then the result is the old registry with the candidate appended. -/
theorem insertUser_ok_iff (users : List User) (u : User) (l : List User) :
    insertUser users u = .ok l ↔
      (u.email ≠ "" ∧ u.name ≠ "" ∧ (∀ r ∈ users, r.email ≠ u.email) ∧
        l = users ++ [u]) := by
  unfold insertUser
  split_ifs with h1 h2 h3
  · simp [h1]
  · simp [h1, h2]
  · rw [List.any_eq_true] at h3
    obtain ⟨r, hr, hre⟩ := h3
    simp only [beq_iff_eq] at hre
    constructor
    · intro hc
      exact absurd hc (by simp)
    · rintro ⟨-, -, hall, -⟩
      exact absurd hre (hall r hr)
  · have h3' : ∀ r ∈ users, r.email ≠ u.email := by
      intro r hr hEq
      exact h3 (List.any_eq_true.mpr ⟨r, hr, by simp [hEq]⟩)
    simp only [Except.ok.injEq]
    constructor
    · intro hl
      exact ⟨h1, h2, h3', hl.symm⟩
    · rintro ⟨-, -, -, rfl⟩
      rfl

/-- The registry invariant maintained by every run of create requests:
stored ids are exactly `1, …, n` in order, the assigned-id log equals that
same sequence, the stored records are exactly the successfully created
records in order, and stored emails are pairwise distinct. -/
def Inv (t : Trace) : Prop :=
  t.users.map User.id = List.range' 1 t.users.length ∧
  t.assignedIds = List.range' 1 t.users.length ∧
  t.created = t.users ∧
  t.users.Pairwise (fun a b => a.email ≠ b.email)

theorem step_ok (t : Trace) (p : User) (l : List User)
    (hins : insertUser t.users (mkCandidate t.users p) = .ok l) :
    step t p =
      { users := l
        assignedIds := t.assignedIds ++ [(mkCandidate t.users p).id]
        created := t.created ++ [mkCandidate t.users p] } := by
  unfold step
  rw [hins]

theorem step_error (t : Trace) (p : User) (e : String)
    (hins : insertUser t.users (mkCandidate t.users p) = .error e) :
    step t p = t := by
  unfold step
  rw [hins]

theorem step_preserves_inv (t : Trace) (p : User) (h : Inv t) :
    Inv (step t p) := by
  obtain ⟨hids, hlog, hcre, hpw⟩ := h
  cases hins : insertUser t.users (mkCandidate t.users p) with
  | error e =>
    rw [step_error t p e hins]
    exact ⟨hids, hlog, hcre, hpw⟩
  | ok l =>
    obtain ⟨-, -, hdup, rfl⟩ := (insertUser_ok_iff _ _ _).mp hins
    rw [step_ok t p _ hins]
    refine ⟨?_, ?_, ?_, ?_⟩
    · simp only [List.map_append, List.length_append, List.map_cons,
        List.map_nil, List.length_cons, List.length_nil]
      rw [hids, List.range'_concat]
      simp [mkCandidate, Nat.add_comm]
    · simp only [List.length_append, List.length_cons, List.length_nil]
      rw [hlog, List.range'_concat]
      simp [mkCandidate, Nat.add_comm]
    · simp only [hcre]
    · simp only [List.pairwise_append]
      refine ⟨hpw, by simp, ?_⟩
      intro a ha b hb
      simp only [List.mem_singleton] at hb
      subst hb
      exact hdup a ha

theorem foldl_step_inv (ps : List User) (t : Trace) (h : Inv t) :
    Inv (ps.foldl step t) := by
  induction ps generalizing t with
  | nil => exact h
  | cons p ps ih => exact ih _ (step_preserves_inv t p h)

theorem run_inv (ps : List User) : Inv (run ps) :=
  foldl_step_inv ps _ (by constructor <;> simp [users0, Inv])

/-- C1: over every sequence of create calls starting from the empty
registry, the stored records' emails are pairwise distinct (exact,
case-sensitive string inequality between any two records). -/
theorem run_emails_pairwise_distinct (ps : List User) :
    (run ps).users.Pairwise (fun a b => a.email ≠ b.email) :=
  (run_inv ps).2.2.2

/-- C5: over every sequence of create calls starting from the empty
registry, the ids assigned by the successful creates, in order, are
strictly increasing — each is strictly greater than every previously
assigned id, so no id is ever repeated or reused. -/
theorem run_assigned_ids_strictly_increasing (ps : List User) :
    (run ps).assignedIds.Pairwise (fun a b => a < b) := by
  rw [(run_inv ps).2.1]
  exact List.pairwise_lt_range' 1 _

/-- C6: over every sequence of create calls starting from the empty
registry, the stored collection is exactly the list of successfully
created records in creation order, and the list handler serializes
exactly that list — no reordering, omission, or duplication. -/
theorem run_list_order_preservation (ps : List User) :
    (run ps).users = (run ps).created ∧
    (getUsersHandler (run ps).users).2.body = encodeUsers ((run ps).created) := by
  have h := (run_inv ps).2.2.1
  exact ⟨h.symm, by rw [getUsersHandler, h]⟩

/-- C10: in every registry state reachable by create calls from the empty
registry, the record at 0-based index `i` (1-based position `i + 1`) has
id `i + 1`; the stored ids are exactly `1, 2, …, n` in order. -/
theorem run_ids_dense_positional (ps : List User) (i : Nat)
    (h : i < (run ps).users.length) :
    ((run ps).users.get ⟨i, h⟩).id = i + 1 := by
  have hm := (run_inv ps).1
  have hlen : i < ((run ps).users.map User.id).length := by
    simpa using h
  have h1 : ((run ps).users.map User.id).get ⟨i, hlen⟩ =
      ((run ps).users.get ⟨i, h⟩).id := by
    simp
  have h2 : ((run ps).users.map User.id).get ⟨i, hlen⟩ = 1 + i := by
    rw [List.get_eq_getElem, List.getElem_of_eq hm hlen]
    exact List.getElem_range'_1 i (by simpa using h)
  rw [← h1, h2, Nat.add_comm]

/-- C10 witness: after one successful create, the record at index 0 has
id 1. -/
theorem run_ids_dense_positional_witness :
    ((run [⟨0, "Ann", "ann@example.com"⟩]).users.get ⟨0, by decide⟩).id = 0 + 1 :=
  run_ids_dense_positional [⟨0, "Ann", "ann@example.com"⟩] 0 (by decide)

/-- C2: `insertUser` fails exactly when the email is empty, the name is
empty, or the email equals a stored record's email; the first failing
check in that order fixes the error message: "email is required", then
"name is required", then "email already exists". -/
theorem insertUser_validation_order (users : List User) (u : User) :
    ((∃ e, insertUser users u = .error e) ↔
      (u.email = "" ∨ u.name = "" ∨ ∃ r ∈ users, r.email = u.email)) ∧
    (insertUser users u = .error "email is required" ↔ u.email = "") ∧
    (insertUser users u = .error "name is required" ↔
      (u.email ≠ "" ∧ u.name = "")) ∧
    (insertUser users u = .error "email already exists" ↔
      (u.email ≠ "" ∧ u.name ≠ "" ∧ ∃ r ∈ users, r.email = u.email)) := by
  have hdup : users.any (fun user => user.email == u.email) = true ↔
      ∃ r ∈ users, r.email = u.email := by
    rw [List.any_eq_true]
    simp
  unfold insertUser
  split_ifs with h1 h2 h3
  · refine ⟨?_, ?_, ?_, ?_⟩ <;> simp [h1]
  · refine ⟨?_, ?_, ?_, ?_⟩ <;> simp [h1, h2]
  · rw [← hdup]
    refine ⟨?_, ?_, ?_, ?_⟩ <;> simp [h1, h2, h3]
  · rw [← hdup]
    refine ⟨?_, ?_, ?_, ?_⟩ <;> simp [h1, h2, h3]

theorem createUserHandler_eq_of_error (users : List User) (payload : User)
    (e : String)
    (hins : insertUser users (mkCandidate users payload) = .error e) :
    createUserHandler users payload =
      (users, { status := 400, body := e ++ "\n" }) := by
  unfold createUserHandler
  rw [hins]

theorem createUserHandler_eq_of_ok (users : List User) (payload : User)
    (l : List User)
    (hins : insertUser users (mkCandidate users payload) = .ok l) :
    createUserHandler users payload = (l, { status := 201, body := "" }) := by
  unfold createUserHandler
  rw [hins]

/-- C3: if the create handler reports a validation failure (status 400),
the registry after the call is exactly the registry before it — same
records, same order, no partial insert. -/
theorem createUserHandler_atomic_on_failure (users : List User) (payload : User)
    (h : (createUserHandler users payload).2.status = 400) :
    (createUserHandler users payload).1 = users := by
  cases hins : insertUser users (mkCandidate users payload) with
  | error e => rw [createUserHandler_eq_of_error users payload e hins]
  | ok l =>
    rw [createUserHandler_eq_of_ok users payload l hins] at h
    simp at h

/-- C3 witness: creating with an empty email fails with status 400 and
leaves the one-record registry unchanged. -/
theorem createUserHandler_atomic_on_failure_witness :
    (createUserHandler [⟨1, "Ann", "ann@example.com"⟩] ⟨0, "Bob", ""⟩).2.status
        = 400 ∧
    (createUserHandler [⟨1, "Ann", "ann@example.com"⟩] ⟨0, "Bob", ""⟩).1
        = [⟨1, "Ann", "ann@example.com"⟩] :=
  ⟨by decide,
    createUserHandler_atomic_on_failure [⟨1, "Ann", "ann@example.com"⟩]
      ⟨0, "Bob", ""⟩ (by decide)⟩

/-- C4 counterexample: on a successful create the handler stores the new
record but responds 201 Created with an EMPTY body — the stored record is
not returned to the caller (its JSON encoding is non-empty, and nothing
else returns it either: the Go `insertUser` returns only `error`). -/
theorem createUserHandler_returns_no_record :
    createUserHandler [] ⟨42, "Alice", "alice@example.com"⟩ =
      ([⟨1, "Alice", "alice@example.com"⟩],
        { status := 201, body := "" }) ∧
    encodeUser ⟨1, "Alice", "alice@example.com"⟩ ≠ "" := by
  constructor
  · rfl
  · decide

/-- C4 amended: for every registry state and every candidate that passes
validation, the create handler assigns id = (current record count) + 1,
appends the record with the candidate's name and email at the end of the
collection (any candidate-supplied id is ignored and overwritten), and
responds 201 Created with an empty body; the stored record itself is not
returned. -/
theorem createUserHandler_success_appends (users : List User) (payload : User)
    (h : (createUserHandler users payload).2.status = 201) :
    (createUserHandler users payload).1 =
        users ++ [⟨users.length + 1, payload.name, payload.email⟩] ∧
    (createUserHandler users payload).2.body = "" := by
  cases hins : insertUser users (mkCandidate users payload) with
  | error e =>
    rw [createUserHandler_eq_of_error users payload e hins] at h
    simp at h
  | ok l =>
    obtain ⟨-, -, -, rfl⟩ := (insertUser_ok_iff _ _ _).mp hins
    rw [createUserHandler_eq_of_ok users payload _ hins]
    exact ⟨rfl, rfl⟩

/-- C4 amended witness: a create on the empty registry with a
candidate-supplied id 7 succeeds, stores the record with id 1, and the
response body is empty. -/
theorem createUserHandler_success_appends_witness :
    (createUserHandler [] ⟨7, "Bob", "bob@example.com"⟩).2.status = 201 ∧
    ((createUserHandler [] ⟨7, "Bob", "bob@example.com"⟩).1 =
        [⟨1, "Bob", "bob@example.com"⟩] ∧
      (createUserHandler [] ⟨7, "Bob", "bob@example.com"⟩).2.body = "") :=
  ⟨by decide,
    createUserHandler_success_appends [] ⟨7, "Bob", "bob@example.com"⟩ (by decide)⟩

/-- C7: after a successful create, the registry — which `getUsersHandler`
serializes as-is — holds exactly one record whose name and email are the
candidate's. -/
theorem list_reflects_create (users : List User) (payload : User)
    (l : List User)
    (h : insertUser users (mkCandidate users payload) = .ok l) :
    (l.filter (fun r => r.name == payload.name && r.email == payload.email)).length
      = 1 ∧
    (getUsersHandler l).2.body = encodeUsers l := by
  obtain ⟨-, -, hdup, rfl⟩ := (insertUser_ok_iff _ _ _).mp h
  refine ⟨?_, rfl⟩
  rw [List.filter_append]
  have h1 : users.filter
      (fun r => r.name == payload.name && r.email == payload.email) = [] := by
    rw [List.filter_eq_nil_iff]
    intro r hr
    have hne := hdup r hr
    simp only [mkCandidate] at hne
    simp [hne]
  rw [h1]
  simp [mkCandidate]

/-- C7 witness: after creating Bob on a registry holding Ann, exactly one
stored record has Bob's name and email. -/
theorem list_reflects_create_witness :
    insertUser [⟨1, "Ann", "ann@example.com"⟩]
        (mkCandidate [⟨1, "Ann", "ann@example.com"⟩] ⟨0, "Bob", "bob@example.com"⟩)
      = .ok [⟨1, "Ann", "ann@example.com"⟩, ⟨2, "Bob", "bob@example.com"⟩] ∧
    ((([⟨1, "Ann", "ann@example.com"⟩,
        ⟨2, "Bob", "bob@example.com"⟩] : List User).filter
          (fun r => r.name == "Bob" && r.email == "bob@example.com")).length = 1 ∧
      (getUsersHandler [⟨1, "Ann", "ann@example.com"⟩,
          ⟨2, "Bob", "bob@example.com"⟩]).2.body
        = encodeUsers [⟨1, "Ann", "ann@example.com"⟩,
            ⟨2, "Bob", "bob@example.com"⟩]) :=
  ⟨by decide,
    list_reflects_create [⟨1, "Ann", "ann@example.com"⟩]
      ⟨0, "Bob", "bob@example.com"⟩
      [⟨1, "Ann", "ann@example.com"⟩, ⟨2, "Bob", "bob@example.com"⟩] (by decide)⟩

/-- C8: listing the empty registry responds 200 with body `[]` — an empty
JSON array, not an error — and the list handler never changes the
registry. -/
theorem getUsersHandler_empty_and_pure (us : List User) :
    getUsersHandler users0 = (users0, { status := 200, body := "[]" }) ∧
    (getUsersHandler us).1 = us :=
  ⟨rfl, rfl⟩

/-- C9: the required-field checks do not trim: any candidate whose name
and email are non-empty strings — whitespace-only strings included —
passes both checks; neither "email is required" nor "name is required"
can be reported for it. -/
theorem insertUser_no_trimming (users : List User) (u : User)
    (he : u.email ≠ "") (hn : u.name ≠ "") :
    insertUser users u ≠ .error "email is required" ∧
    insertUser users u ≠ .error "name is required" := by
  constructor <;> intro hEq <;> unfold insertUser at hEq <;>
    split_ifs at hEq with h1 h2 <;>
      first
        | exact he h1
        | exact hn h2
        | simp at hEq

/-- C9 witness: a candidate whose name and email are the single space
" " passes both required-field checks. -/
theorem insertUser_no_trimming_witness :
    ((⟨1, " ", " "⟩ : User).email ≠ "" ∧ (⟨1, " ", " "⟩ : User).name ≠ "") ∧
    (insertUser [] ⟨1, " ", " "⟩ ≠ .error "email is required" ∧
      insertUser [] ⟨1, " ", " "⟩ ≠ .error "name is required") :=
  ⟨⟨by decide, by decide⟩,
    insertUser_no_trimming [] ⟨1, " ", " "⟩ (by decide) (by decide)⟩

end UsersApi
